import Mathlib

/-!
Verification of the payment-manager client SDK and CLI wrapper
(solana-nft-programs/payment-manager).

Part 1 embeds `src/tools/cli.ts` shallowly: the `commandBuilder` handler
is modelled as a pure function producing an ordered trace of console
events plus the (unmodified) result of the operation handler, and the
top-level yargs configuration (defaults, `.strict()`, `.demandCommand()`)
is modelled as a parse function.

Part 2 models the three chain operations (Create, Update, Get) and the
on-chain account state from the specification, since the operation
modules (`createPaymentManager.ts`, `updatePaymentManager.ts`,
`getPaymentManager.ts`) and the on-chain program are not part of the
source tree here.
-/

/-! ## Part 1: the CLI layer (`src/tools/cli.ts`) -/

/-- Environment variables read by the CLI handler (`process.env.CLUSTER`,
`process.env.WALLET`); `none` models an unset variable. -/
structure Env where
  CLUSTER : Option String
  WALLET : Option String
  deriving Repr, DecidableEq

/-- JavaScript `e || d` for an optional environment-variable string:
an unset variable or the empty string (both falsy in JS) fall back to
the default `d`; any non-empty string is truthy and wins. -/
def jsOrDefault (v : Option String) (d : String) : String :=
  match v with
  | none => d
  | some s => if s = "" then d else s

/-- The connection object built by `connectionFor(clusterString)`;
only the cluster string it was constructed from is relevant here. -/
structure Conn where
  cluster : String
  deriving Repr, DecidableEq

/-- Modelled from the spec: `connectionFor` (from the external common
library) builds a connection for the given cluster moniker. -/
def connectionFor (clusterString : String) : Conn :=
  ⟨clusterString⟩

/-- Modelled from the spec: `keypairFrom(path, "wallet")` (in the missing
`utils.ts`) loads the signing keypair from the given wallet path; the
model identifies the keypair by the path it was loaded from. -/
def keypairFrom (path : String) : String :=
  path

/-- The anchor `Wallet` wrapper around a keypair; `publicKey` is the
identity string shown in the CLI banner. -/
structure Wallet where
  publicKey : String
  deriving Repr, DecidableEq

/-- The cluster string computed at line 35 of `cli.ts`:
`process.env.CLUSTER || cluster`. -/
def resolvedCluster (env : Env) (cluster : String) : String :=
  jsOrDefault env.CLUSTER cluster

/-- The wallet path computed at line 37 of `cli.ts`:
`process.env.WALLET || wallet`. -/
def resolvedWalletPath (env : Env) (wallet : String) : String :=
  jsOrDefault env.WALLET wallet

/-- Errors surfaced by an operation handler (submission or fetch
failures); the CLI layer treats them opaquely. -/
structure CliError where
  message : String
  deriving Repr, DecidableEq

/-- One observable step of the command handler, in program order. -/
inductive Event (T : Type) where
  /-- the call `command.getArgs(c, w)` at line 38 -/
  | getArgsCall : Event T
  /-- a `console.log` of a plain string -/
  | log (s : String) : Event T
  /-- `console.log(JSON.stringify(a, null, 2))` at line 44, recording
  the argument object that was stringified -/
  | logArgs (a : T) : Event T
  /-- the blocking confirmation `question` at line 45 -/
  | prompt (s : String) : Event T
  /-- the call `command.handler(c, w, a)` at line 46, recording the
  argument object passed -/
  | runHandler (a : T) : Event T
  deriving Repr, DecidableEq

/-- A CLI command module as consumed by `commandBuilder`: a name, a
description, an argument builder and an operation handler. -/
structure Command (T : Type) where
  commandName : String
  description : String
  getArgs : Conn → Wallet → T
  handler : Conn → Wallet → T → Except CliError Unit

/-- The outcome of one command invocation: the connection and wallet
constructed at lines 36-37, the ordered event trace and the propagated
result of the operation handler. -/
structure RunResult (T : Type) where
  conn : Conn
  wallet : Wallet
  trace : List (Event T)
  result : Except CliError Unit

/-- The handler produced by `commandBuilder` (lines 31-47 of `cli.ts`):
resolve cluster and wallet with environment overrides, build the
connection and wallet, build the arguments once, print the banner and
the JSON arguments, prompt for confirmation, then run the handler and
propagate its result untouched. -/
def runCommand {T : Type} (cmd : Command T) (env : Env)
    (cluster wallet : String) : RunResult T :=
  let clusterString := resolvedCluster env cluster
  let c := connectionFor clusterString
  let w : Wallet := ⟨keypairFrom (resolvedWalletPath env wallet)⟩
  let a := cmd.getArgs c w
  { conn := c
    wallet := w
    trace :=
      [ Event.getArgsCall
      , Event.log cmd.description
      , Event.log ("[cluster=" ++ clusterString ++ "] [wallet="
          ++ w.publicKey ++ "]")
      , Event.log ("\n(modify args in " ++ cmd.commandName ++ ".ts)")
      , Event.logArgs a
      , Event.prompt "\nExecute... [enter]"
      , Event.runHandler a ]
    result := cmd.handler c w a }

/-- Test whether an event is the JSON printing of the arguments. -/
def isLogArgs {T : Type} : Event T → Bool
  | Event.logArgs _ => true
  | _ => false

/-- Test whether an event is the confirmation prompt. -/
def isPrompt {T : Type} : Event T → Bool
  | Event.prompt _ => true
  | _ => false

/-- Test whether an event is the invocation of the operation handler. -/
def isRunHandler {T : Type} : Event T → Bool
  | Event.runHandler _ => true
  | _ => false

/-- Test whether an event is the invocation of `getArgs`. -/
def isGetArgsCall {T : Type} : Event T → Bool
  | Event.getArgsCall => true
  | _ => false

/-- A concrete do-nothing command used to instantiate closed statements. -/
def sampleCommand : Command Nat :=
  { commandName := "createPaymentManager"
    description := "Create a payment manager"
    getArgs := fun _ _ => 0
    handler := fun _ _ _ => Except.ok () }

/-- Errors produced by the yargs configuration at lines 64-79. -/
inductive YargsError where
  /-- `.demandCommand()`: no subcommand was supplied -/
  | missingCommand
  /-- `.strict()`: the supplied subcommand is not registered -/
  | unknownCommand (s : String)
  deriving Repr, DecidableEq

/-- One CLI invocation as seen by yargs: an optional subcommand and the
optional `--cluster` and `--wallet` flags. -/
structure Invocation where
  subcommand : Option String
  clusterFlag : Option String
  walletFlag : Option String
  deriving Repr, DecidableEq

/-- The yargs pipeline at lines 64-79 of `cli.ts`: positional defaults
`wallet = "~/.config/solana/id.json"` and `cluster = "devnet"`, three
registered commands, `.strict()` and `.demandCommand()`. Returns the
selected command name together with the cluster and wallet argument
values, or a rejection. -/
def yargsParse (registered : List String) (inv : Invocation) :
    Except YargsError (String × String × String) :=
  match inv.subcommand with
  | none => Except.error YargsError.missingCommand
  | some sc =>
    if registered.contains sc then
      Except.ok (sc, inv.clusterFlag.getD "devnet",
        inv.walletFlag.getD "~/.config/solana/id.json")
    else
      Except.error (YargsError.unknownCommand sc)

/-! ## Part 2: the chain operations, modelled from the spec -/

/-- Modelled from the spec: the decoded payment-manager account record
(section 3 of the spec) with its authority, fee basis points and fee
recipient; the operation modules and on-chain schema are not in the
source tree. -/
structure PaymentManagerAccount where
  authority : String
  feeBps : Nat
  feeRecipient : String
  deriving Repr, DecidableEq

/-- Modelled from the spec: the on-chain state relevant to this SDK, a
finite map from identifier (the derivation seed) to the stored account. -/
abbrev Chain := List (String × PaymentManagerAccount)

/-- Look up the account stored at an identifier, if any. -/
def lookupAccount (st : Chain) (ident : String) :
    Option PaymentManagerAccount :=
  match st with
  | [] => none
  | (k, v) :: rest => if k = ident then some v else lookupAccount rest ident

/-- Replace the account stored at an identifier, leaving every other
entry untouched. -/
def setAccount (st : Chain) (ident : String)
    (acc : PaymentManagerAccount) : Chain :=
  match st with
  | [] => []
  | (k, v) :: rest =>
    if k = ident then (k, acc) :: setAccount rest ident acc
    else (k, v) :: setAccount rest ident acc

/-- Transaction failures surfaced by the external program. -/
inductive TxError where
  | accountAlreadyExists
  | accountNotFound
  | invalidAuthority
  deriving Repr, DecidableEq

/-- Modelled from the spec: the Create operation (section 4.1). Given an
identifier, fee parameters and an authority, initialize the derived
account; fails if the account already exists. -/
def createOp (st : Chain) (ident : String) (feeBps : Nat)
    (feeRecipient authority : String) : Except TxError Chain :=
  match lookupAccount st ident with
  | some _ => Except.error TxError.accountAlreadyExists
  | none => Except.ok ((ident, ⟨authority, feeBps, feeRecipient⟩) :: st)

/-- Modelled from the spec: the Update operation (section 4.2). The
signer must be the current authority; each argument left as `none`
leaves the corresponding field untouched. -/
def updateOp (st : Chain) (signer ident : String)
    (newFeeBps : Option Nat) (newFeeRecipient newAuthority : Option String) :
    Except TxError Chain :=
  match lookupAccount st ident with
  | none => Except.error TxError.accountNotFound
  | some acc =>
    if signer = acc.authority then
      Except.ok (setAccount st ident
        { authority := newAuthority.getD acc.authority
          feeBps := newFeeBps.getD acc.feeBps
          feeRecipient := newFeeRecipient.getD acc.feeRecipient })
    else
      Except.error TxError.invalidAuthority

/-- The result of the Get operation: the decoded account or not-found. -/
inductive GetResult where
  | notFound
  | found (acc : PaymentManagerAccount)
  deriving Repr, DecidableEq

/-- Modelled from the spec: the Get operation (section 4.3). Fetch and
decode the account at the identifier; purely a read, it takes the chain
and returns only a result, never a new chain. -/
def getOp (st : Chain) (ident : String) : GetResult :=
  match lookupAccount st ident with
  | none => GetResult.notFound
  | some acc => GetResult.found acc

/-- Submit a transaction outcome: on success the chain advances, on
failure the chain is left unchanged and the error is reported
(atomicity of the underlying transaction model, spec section 7). -/
def submitTx (st : Chain) (r : Except TxError Chain) :
    Chain × Option TxError :=
  match r with
  | Except.ok st' => (st', none)
  | Except.error e => (st, some e)

/-! ## Shared lemmas -/

/-- Replacing the account at identifier `i` changes the lookup at `i`
exactly when an account was there, and no other lookup. -/
theorem lookupAccount_setAccount (st : Chain) (i j : String)
    (acc : PaymentManagerAccount) :
    lookupAccount (setAccount st i acc) j =
      if j = i then (lookupAccount st i).map (fun _ => acc)
      else lookupAccount st j := by
  induction st with
  | nil =>
    by_cases hji : j = i <;> simp [setAccount, lookupAccount, hji]
  | cons hd tl ih =>
    obtain ⟨k, v⟩ := hd
    simp only [setAccount, lookupAccount]
    by_cases hki : k = i <;> by_cases hkj : k = j <;>
      by_cases hji : j = i <;> simp_all [lookupAccount]

/-! ## Claim theorems: chain operations -/

/-- C1: for every payment-manager account and every Update attempt, the
update succeeds only when the signer is the recorded authority; any
other signer is rejected with a failed-transaction error, the chain is
left unchanged, and Get before and after agree. -/
theorem update_requires_authority (st : Chain) (signer ident : String)
    (acc : PaymentManagerAccount) (nf : Option Nat)
    (nr na : Option String)
    (hacc : lookupAccount st ident = some acc)
    (hsig : signer ≠ acc.authority) :
    updateOp st signer ident nf nr na =
        Except.error TxError.invalidAuthority ∧
      (submitTx st (updateOp st signer ident nf nr na)).1 = st ∧
      getOp (submitTx st (updateOp st signer ident nf nr na)).1 ident =
        getOp st ident := by
  have h1 : updateOp st signer ident nf nr na =
      Except.error TxError.invalidAuthority := by
    unfold updateOp
    rw [hacc]
    simp [hsig]
  exact ⟨h1, by rw [h1]; rfl, by rw [h1]; rfl⟩

/-- Closed instance of `update_requires_authority`: signer `B` may not
update the account whose authority is `A`. -/
theorem update_requires_authority_witness :
    lookupAccount [("pm1", ⟨"A", 250, "R"⟩)] "pm1" =
        some ⟨"A", 250, "R"⟩ ∧
      ("B" : String) ≠ "A" ∧
      updateOp [("pm1", ⟨"A", 250, "R"⟩)] "B" "pm1" (some 999) none none =
        Except.error TxError.invalidAuthority := by
  refine ⟨by decide, by decide, ?_⟩
  exact (update_requires_authority [("pm1", ⟨"A", 250, "R"⟩)] "B" "pm1"
    ⟨"A", 250, "R"⟩ (some 999) none none (by decide) (by decide)).1

/-- C5: for all valid inputs, Create at a fresh identifier succeeds and
a subsequent Get returns a decoded account whose fields equal the
inputs supplied to Create. -/
theorem create_then_get (st : Chain) (ident : String) (feeBps : Nat)
    (feeRecipient authority : String)
    (h : lookupAccount st ident = none) :
    ∃ st', createOp st ident feeBps feeRecipient authority =
        Except.ok st' ∧
      getOp st' ident =
        GetResult.found ⟨authority, feeBps, feeRecipient⟩ := by
  refine ⟨(ident, ⟨authority, feeBps, feeRecipient⟩) :: st, ?_, ?_⟩
  · unfold createOp
    rw [h]
  · simp [getOp, lookupAccount]

/-- Closed instance of `create_then_get` at the spec's example inputs. -/
theorem create_then_get_witness :
    lookupAccount [] "payments-1" = none ∧
      ∃ st', createOp [] "payments-1" 250 "R" "A" = Except.ok st' ∧
        getOp st' "payments-1" = GetResult.found ⟨"A", 250, "R"⟩ := by
  refine ⟨rfl, ?_⟩
  exact create_then_get [] "payments-1" 250 "R" "A" rfl

/-- C6: an Update by the correct authority succeeds, changes exactly the
fields targeted by the update's arguments (an argument left as `none`
leaves its field untouched), Get at the identifier reflects the change,
and Get at every other identifier is unchanged. -/
theorem update_by_authority_frame (st : Chain) (signer ident : String)
    (acc : PaymentManagerAccount) (nf : Option Nat)
    (nr na : Option String)
    (hacc : lookupAccount st ident = some acc)
    (hsig : signer = acc.authority) :
    ∃ st', updateOp st signer ident nf nr na = Except.ok st' ∧
      getOp st' ident = GetResult.found
        ⟨na.getD acc.authority, nf.getD acc.feeBps,
          nr.getD acc.feeRecipient⟩ ∧
      ∀ j, j ≠ ident → getOp st' j = getOp st j := by
  refine ⟨setAccount st ident
    ⟨na.getD acc.authority, nf.getD acc.feeBps,
      nr.getD acc.feeRecipient⟩, ?_, ?_, ?_⟩
  · unfold updateOp
    rw [hacc]
    simp [hsig]
  · unfold getOp
    rw [lookupAccount_setAccount]
    simp [hacc]
  · intro j hj
    unfold getOp
    rw [lookupAccount_setAccount]
    simp [hj]

/-- Closed instance of `update_by_authority_frame`: authority `A`
retargets only the fee while the authority and fee recipient fields and
an unrelated account are untouched. -/
theorem update_by_authority_frame_witness :
    lookupAccount [("pm1", ⟨"A", 250, "R"⟩), ("pm2", ⟨"C", 7, "S"⟩)]
        "pm1" = some ⟨"A", 250, "R"⟩ ∧
      ("A" : String) = "A" ∧
      ∃ st', updateOp [("pm1", ⟨"A", 250, "R"⟩), ("pm2", ⟨"C", 7, "S"⟩)]
          "A" "pm1" (some 500) none none = Except.ok st' ∧
        getOp st' "pm1" = GetResult.found ⟨"A", 500, "R"⟩ ∧
        ∀ j, j ≠ "pm1" →
          getOp st' j =
            getOp [("pm1", ⟨"A", 250, "R"⟩), ("pm2", ⟨"C", 7, "S"⟩)] j := by
  refine ⟨by decide, rfl, ?_⟩
  exact update_by_authority_frame
    [("pm1", ⟨"A", 250, "R"⟩), ("pm2", ⟨"C", 7, "S"⟩)] "A" "pm1"
    ⟨"A", 250, "R"⟩ (some 500) none none (by decide) rfl

/-- C7: Get at an identifier where no account exists returns the
not-found result and never a decoded value; `getOp` consumes the chain
read-only and returns no successor state, so it has no side effects. -/
theorem get_missing_not_found (st : Chain) (ident : String)
    (h : lookupAccount st ident = none) :
    getOp st ident = GetResult.notFound ∧
      ∀ acc, getOp st ident ≠ GetResult.found acc := by
  have h1 : getOp st ident = GetResult.notFound := by
    unfold getOp
    rw [h]
  exact ⟨h1, fun acc hacc => by rw [h1] at hacc; exact absurd hacc (by simp)⟩

/-- Closed instance of `get_missing_not_found` on a chain holding only
an unrelated account. -/
theorem get_missing_not_found_witness :
    lookupAccount [("pm2", ⟨"C", 7, "S"⟩)] "payments-1" = none ∧
      getOp [("pm2", ⟨"C", 7, "S"⟩)] "payments-1" = GetResult.notFound := by
  refine ⟨by decide, ?_⟩
  exact (get_missing_not_found [("pm2", ⟨"C", 7, "S"⟩)] "payments-1"
    (by decide)).1

/-! ## Claim theorems: the CLI layer -/

/-- C2, counterexample: on a concrete invocation the confirmation
prompt does NOT precede the printing of the JSON-formatted arguments;
the arguments appear at trace index 4 and the prompt at index 5. -/
theorem prompt_precedes_args_counterexample :
    ¬ (List.findIdx isPrompt
        (runCommand sampleCommand ⟨none, none⟩ "devnet"
          "~/.config/solana/id.json").trace <
      List.findIdx isLogArgs
        (runCommand sampleCommand ⟨none, none⟩ "devnet"
          "~/.config/solana/id.json").trace) ∧
    List.findIdx isLogArgs
        (runCommand sampleCommand ⟨none, none⟩ "devnet"
          "~/.config/solana/id.json").trace = 4 ∧
    List.findIdx isPrompt
        (runCommand sampleCommand ⟨none, none⟩ "devnet"
          "~/.config/solana/id.json").trace = 5 := by
  refine ⟨?_, rfl, rfl⟩
  simp [runCommand, sampleCommand, List.findIdx, List.findIdx.go,
    isPrompt, isLogArgs]

/-- C2, amended: every command invocation prints the JSON-formatted
arguments first, then shows the confirmation prompt, and only after the
prompt invokes the operation handler (whose result printing follows). -/
theorem args_then_prompt_then_handler {T : Type} (cmd : Command T)
    (env : Env) (cluster wallet : String) :
    List.findIdx isLogArgs (runCommand cmd env cluster wallet).trace <
      List.findIdx isPrompt (runCommand cmd env cluster wallet).trace ∧
    List.findIdx isPrompt (runCommand cmd env cluster wallet).trace <
      List.findIdx isRunHandler (runCommand cmd env cluster wallet).trace := by
  constructor <;>
    simp [runCommand, List.findIdx, List.findIdx.go, isPrompt,
      isLogArgs, isRunHandler]

/-- C3, counterexample: with `CLUSTER` set to the empty string the
connection is built from the `--cluster` argument, not from the
environment value, so a set variable's value is not always used. -/
theorem cluster_env_set_counterexample :
    (Env.mk (some "") none).CLUSTER = some "" ∧
    (runCommand sampleCommand (Env.mk (some "") none) "devnet"
        "~/.config/solana/id.json").conn ≠ connectionFor "" ∧
    (runCommand sampleCommand (Env.mk (some "") none) "devnet"
        "~/.config/solana/id.json").conn = connectionFor "devnet" := by
  refine ⟨rfl, ?_, rfl⟩
  intro h
  simp [runCommand, sampleCommand, connectionFor, resolvedCluster,
    jsOrDefault, Conn.mk.injEq] at h

/-- C3, amended: if `CLUSTER` (resp. `WALLET`) is set to a non-empty
string, its value is used instead of the `--cluster` (resp. `--wallet`)
argument, and the connection (resp. wallet) is built from that value;
each override holds on its own, whatever the other variable is. -/
theorem env_override_nonempty {T : Type} (cmd : Command T) (env : Env)
    (cluster wallet : String) :
    (∀ s, env.CLUSTER = some s → s ≠ "" →
      (runCommand cmd env cluster wallet).conn = connectionFor s) ∧
    (∀ t, env.WALLET = some t → t ≠ "" →
      (runCommand cmd env cluster wallet).wallet = ⟨keypairFrom t⟩) := by
  constructor
  · intro s hc hcne
    unfold runCommand resolvedCluster jsOrDefault
    rw [hc]
    simp [hcne, connectionFor]
  · intro t hw hwne
    unfold runCommand resolvedWalletPath jsOrDefault
    rw [hw]
    simp [hwne, connectionFor]

/-- Closed instances of `env_override_nonempty`, one for each variable
on its own: a non-empty `CLUSTER` wins while `WALLET` is unset, and a
non-empty `WALLET` wins while `CLUSTER` is unset. -/
theorem env_override_nonempty_witness :
    (runCommand sampleCommand (Env.mk (some "mainnet") none) "devnet"
        "~/.config/solana/id.json").conn = connectionFor "mainnet" ∧
      (runCommand sampleCommand (Env.mk none (some "/keys/main.json"))
          "devnet" "~/.config/solana/id.json").wallet =
        ⟨keypairFrom "/keys/main.json"⟩ := by
  constructor
  · exact (env_override_nonempty sampleCommand
      (Env.mk (some "mainnet") none) "devnet"
      "~/.config/solana/id.json").1 "mainnet" rfl (by decide)
  · exact (env_override_nonempty sampleCommand
      (Env.mk none (some "/keys/main.json")) "devnet"
      "~/.config/solana/id.json").2 "/keys/main.json" rfl (by decide)

/-- C4: when every submission attempt of the operation handler fails
with error `e`, the command invocation's overall result is exactly
`Except.error e` — no transformation, no recovery — and the trace shows
exactly one handler invocation, so there is no retry, and no catch
handler sits between the operation handler and the propagated result. -/
theorem failure_propagated_unmodified {T : Type} (cmd : Command T)
    (env : Env) (cluster wallet : String) (e : CliError)
    (hfail : ∀ c w a, cmd.handler c w a = Except.error e) :
    (runCommand cmd env cluster wallet).result = Except.error e ∧
      List.countP isRunHandler (runCommand cmd env cluster wallet).trace
        = 1 := by
  constructor
  · unfold runCommand
    exact hfail _ _ _
  · simp [runCommand, List.countP, List.countP.go, isRunHandler]

/-- Closed instance of `failure_propagated_unmodified` on a command
whose submission always fails with an insufficient-funds error. -/
theorem failure_propagated_unmodified_witness :
    (∀ c w a, (Command.mk "createPaymentManager" "Create" (fun _ _ => 0)
        (fun _ _ _ => Except.error ⟨"insufficient funds"⟩)
        : Command Nat).handler c w a =
        Except.error (⟨"insufficient funds"⟩ : CliError)) ∧
      (runCommand (Command.mk "createPaymentManager" "Create"
          (fun _ _ => (0 : Nat))
          (fun _ _ _ => Except.error ⟨"insufficient funds"⟩))
          (Env.mk none none) "devnet" "~/.config/solana/id.json").result =
        Except.error (⟨"insufficient funds"⟩ : CliError) := by
  refine ⟨fun c w a => rfl, ?_⟩
  exact (failure_propagated_unmodified (Command.mk "createPaymentManager"
    "Create" (fun _ _ => (0 : Nat))
    (fun _ _ _ => Except.error ⟨"insufficient funds"⟩))
    (Env.mk none none) "devnet" "~/.config/solana/id.json"
    ⟨"insufficient funds"⟩ (fun c w a => rfl)).1

/-- C8: `CLUSTER` (resp. `WALLET`) set to the empty string is treated
as unset — the `||` fallback is truthiness, not a presence check — so
the connection (resp. wallet) is built from the argument value. -/
theorem env_empty_treated_as_unset {T : Type} (cmd : Command T)
    (env : Env) (cluster wallet : String) :
    (env.CLUSTER = some "" →
      (runCommand cmd env cluster wallet).conn = connectionFor cluster) ∧
    (env.WALLET = some "" →
      (runCommand cmd env cluster wallet).wallet =
        ⟨keypairFrom wallet⟩) := by
  constructor
  · intro hc
    unfold runCommand resolvedCluster jsOrDefault
    rw [hc]
    simp [connectionFor]
  · intro hw
    unfold runCommand resolvedWalletPath jsOrDefault
    rw [hw]
    simp [connectionFor]

/-- Closed instance of `env_empty_treated_as_unset` with both variables
set to the empty string: the argument values win. -/
theorem env_empty_treated_as_unset_witness :
    (Env.mk (some "") (some "")).CLUSTER = some "" ∧
      (Env.mk (some "") (some "")).WALLET = some "" ∧
      (runCommand sampleCommand (Env.mk (some "") (some "")) "devnet"
          "~/.config/solana/id.json").conn = connectionFor "devnet" ∧
      (runCommand sampleCommand (Env.mk (some "") (some "")) "devnet"
          "~/.config/solana/id.json").wallet =
        ⟨keypairFrom "~/.config/solana/id.json"⟩ := by
  refine ⟨rfl, rfl, ?_, ?_⟩
  · exact (env_empty_treated_as_unset sampleCommand
      (Env.mk (some "") (some "")) "devnet"
      "~/.config/solana/id.json").1 rfl
  · exact (env_empty_treated_as_unset sampleCommand
      (Env.mk (some "") (some "")) "devnet"
      "~/.config/solana/id.json").2 rfl

/-- C9: `getArgs` is invoked exactly once per command invocation, and
one single argument object is both the object printed as JSON and the
object later passed to the operation handler, with the printing
occurring before the handler call. -/
theorem args_displayed_are_args_executed {T : Type} (cmd : Command T)
    (env : Env) (cluster wallet : String) :
    List.countP isGetArgsCall (runCommand cmd env cluster wallet).trace
        = 1 ∧
      (∃ a, List.filter isLogArgs
            (runCommand cmd env cluster wallet).trace =
          [Event.logArgs a] ∧
        List.filter isRunHandler
            (runCommand cmd env cluster wallet).trace =
          [Event.runHandler a]) ∧
      List.findIdx isLogArgs (runCommand cmd env cluster wallet).trace <
        List.findIdx isRunHandler
          (runCommand cmd env cluster wallet).trace := by
  refine ⟨?_, ⟨cmd.getArgs (connectionFor (resolvedCluster env cluster))
    ⟨keypairFrom (resolvedWalletPath env wallet)⟩, ?_, ?_⟩, ?_⟩ <;>
    simp [runCommand, List.countP, List.countP.go, List.filter,
      List.findIdx, List.findIdx.go, isGetArgsCall, isLogArgs,
      isRunHandler]

/-- C10: with no subcommand the invocation is rejected by
`demandCommand`; with an unregistered subcommand it is rejected by
`strict`; with a registered subcommand and no flags the cluster
argument defaults to `devnet` and the wallet argument to
`~/.config/solana/id.json`, and with the environment variables also
unset those defaults are what the handler resolves and uses. -/
theorem yargs_defaults_and_rejection (registered : List String)
    (sc : String) (cf wf : Option String) :
    yargsParse registered ⟨none, cf, wf⟩ =
        Except.error YargsError.missingCommand ∧
      yargsParse registered ⟨some sc, none, none⟩ =
        (if registered.contains sc then
          Except.ok (sc, "devnet", "~/.config/solana/id.json")
        else Except.error (YargsError.unknownCommand sc)) ∧
      resolvedCluster (Env.mk none wf) "devnet" = "devnet" ∧
      resolvedWalletPath (Env.mk cf none) "~/.config/solana/id.json" =
        "~/.config/solana/id.json" := by
  refine ⟨rfl, ?_, rfl, rfl⟩
  by_cases h : registered.contains sc <;>
    simp [yargsParse, h]
